import Mathlib

/-!
Shallow embedding of the PlaySync playlist transfer engine
(`main.py`, `spotify_client.py`, `youtube_client.py`).

Pure data flow is translated to Lean functions; Python exceptions are
modelled with `Option`/`Except` (a `none`/`.error` value is a raised
exception that the caller may catch); Python `set` values of
`(name, artist)` tuples are modelled as `Finset (String × String)`.
-/

/-- A track as produced by every adapter's `get_playlist_tracks`:
a dict with keys `name`, `artist`, `album`. -/
structure Track where
  name : String
  artist : String
  album : String
  deriving DecidableEq, Repr

/-- The `(track['name'], track['artist'])` tuple used as the identity key
by `merge_playlists` and `compare_playlists` in `main.py`. -/
def trackKey (t : Track) : String × String :=
  (t.name, t.artist)

/-! ## Set-operations engine (`merge_playlists`, `compare_playlists`) -/

/-- Embeds `main.py merge_playlists`: the running Python set `all_tracks`, built by
`all_tracks.add((track['name'], track['artist']))` over every source's
track list in order. -/
def merge_pair_set (sources : List (List Track)) : Finset (String × String) :=
  sources.foldl (fun acc ts => ts.foldl (fun a t => insert (trackKey t) a) acc) ∅

/-- Embeds `main.py merge_playlists`: the merged output, one dict
`{"name": t[0], "artist": t[1], "album": ""}` per element of the set
(Python set iteration order is unspecified, so the output is a set). -/
def merged_tracks (sources : List (List Track)) : Finset Track :=
  (merge_pair_set sources).image (fun p => { name := p.1, artist := p.2, album := "" })

/-- Embeds `main.py compare_playlists`: one Python set
`{(t['name'], t['artist']) for t in tracks}` per source. -/
def track_pair_set (tracks : List Track) : Finset (String × String) :=
  (tracks.map trackKey).toFinset

/-- Embeds `main.py compare_playlists`: `common = set.intersection(*track_sets.values())`,
the intersection of the first source's set with all the following ones
(an empty source dict would be a `TypeError` in Python; the menu guarantees
at least two sources, so the list passed here is nonempty). -/
def compare_common (s : Finset (String × String)) (rest : List (Finset (String × String))) :
    Finset (String × String) :=
  rest.foldl (fun a b => a ∩ b) s

/-- Embeds `main.py compare_playlists`: `unique = tracks - common` for one source. -/
def unique_to (s common : Finset (String × String)) : Finset (String × String) :=
  s \ common

/-! ## Batch add operations of the catalog adapters -/

/-- Embeds `spotify_client.py SpotifyClient.add_tracks`.
`search : Track → Option String` models
`self.sp.search(q=f"{name} {artist}", type='track', limit=1)` followed by the
non-empty check: `some id` when `result['tracks']['items']` is non-empty and
`id` is the first item's id, `none` when the search returns zero items.
`addItems : String → List String → Option Unit` models
`self.sp.playlist_add_items` (`none` = the call raised, the exception
propagates to the caller). Returns `len(track_ids)`. -/
def spotify_add_tracks (search : Track → Option String)
    (addItems : String → List String → Option Unit)
    (playlist_id : String) (tracks : List Track) : Option Nat :=
  let track_ids := tracks.filterMap search
  if track_ids.isEmpty then
    some track_ids.length
  else
    match addItems playlist_id track_ids with
    | none => none
    | some _ => some track_ids.length

/-- Embeds `youtube_client.py YouTubeMusicClient.add_tracks`.
`search : Track → List String` models
`self.yt.search(query, filter="songs", limit=1)` returning the video ids of
the results (`[]` = zero search results); `addItems` models
`self.yt.add_playlist_items` on one video id (`none` = raised, which
propagates and aborts the loop). Returns the final `added` counter. -/
def yt_add_tracks (search : Track → List String)
    (addItems : String → String → Option Unit)
    (playlist_id : String) : List Track → Option Nat
  | [] => some 0
  | t :: rest =>
    match search t with
    | [] => yt_add_tracks search addItems playlist_id rest
    | v :: _ =>
      match addItems playlist_id v with
      | none => none
      | some _ =>
        match yt_add_tracks search addItems playlist_id rest with
        | none => none
        | some n => some (n + 1)

/-! ## The transfer engine (`main.py add_to_target`, `convert_playlist`) -/

/-- The per-track fallback loop of `main.py add_to_target`
(`for idx, track in enumerate(tracks, start=1): try: add_track ... except: log`).
`addTrack idx t = false` means that call raised (the exception is caught
inside the loop body and logged). Returns
(number of tracks the loop processed, number of successful adds). -/
def per_track_add_loop (addTrack : Nat → Track → Bool) :
    Nat → List Track → Nat × Nat
  | _, [] => (0, 0)
  | idx, t :: rest =>
    let ok := addTrack idx t
    let r := per_track_add_loop addTrack (idx + 1) rest
    (r.1 + 1, r.2 + if ok then 1 else 0)

/-- The add capability a target client exposes, as probed by
`hasattr(target_client, "add_tracks")` (batch, preferred) and
`hasattr(target_client, "add_track")` (per-track fallback) in
`main.py add_to_target`. -/
inductive AddCap where
  | batch (addTracks : String → List Track → Option Nat)
  | perTrack (addTrack : Nat → Track → Bool)
  | noAdd
  deriving Inhabited

/-- A target client as seen by `add_to_target`: `create_playlist`
(`none` = raised) plus its add capability. -/
structure TargetClient where
  create : String → Option String
  cap : AddCap

/-- Observable outcome of one `add_to_target` run: the returned boolean,
the id of the playlist created on the target (if creation happened), the
number of tracks handed to the add phase, and the add count the adapter
reported (which `add_to_target` itself ignores). -/
structure AddOutcome where
  ok : Bool
  created : Option String
  attempted : Nat
  added : Nat
  deriving DecidableEq, Repr

/-- Embeds `main.py add_to_target`: resolve the client (`None` → return `False`),
`create_playlist` (raise → return `False`, nothing attempted), then the add
phase: batch `add_tracks` if present (a raise there → return `False`; its
returned count is not consulted), else the per-track loop (which catches
every per-track raise and always completes), else no capability → `False`.
On reaching the end it returns `True`. -/
def add_to_target (client : Option TargetClient) (playlist_name : String)
    (tracks : List Track) : AddOutcome :=
  match client with
  | none => ⟨false, none, 0, 0⟩
  | some c =>
    match c.create playlist_name with
    | none => ⟨false, none, 0, 0⟩
    | some pid =>
      match c.cap with
      | .batch f =>
        match f pid tracks with
        | none => ⟨false, some pid, tracks.length, 0⟩
        | some n => ⟨true, some pid, tracks.length, n⟩
      | .perTrack g =>
        let r := per_track_add_loop g 1 tracks
        ⟨true, some pid, r.1, r.2⟩
      | .noAdd => ⟨false, some pid, 0, 0⟩

/-- Embeds `main.py get_tracks`: the fetch is wrapped in `try/except`; any raised
exception (or an unknown source type) yields `[]` instead of propagating. -/
def get_tracks (fetchResult : Except String (List Track)) : List Track :=
  match fetchResult with
  | .error _ => []
  | .ok ts => ts

/-- Python `str.strip()` on the string's character list (Lean's own
`String.trim` is not kernel-reducible, so the embedding carries its own
structural implementation). -/
def pyStrip (s : List Char) : List Char :=
  ((s.dropWhile Char.isWhitespace).reverse.dropWhile Char.isWhitespace).reverse

/-- Python `str.lower()` on the string's character list. -/
def pyLower (s : List Char) : List Char :=
  s.map Char.toLower

/-- Python `str.split(",")` on the string's character list. -/
def pySplitComma : List Char → List (List Char)
  | [] => [[]]
  | c :: rest =>
    let r := pySplitComma rest
    if c = ',' then [] :: r
    else
      match r with
      | [] => [[c]]
      | h :: t => (c :: h) :: t

/-- Embeds `main.py convert_playlist` lines 134-151: turn the raw target-selection
string into the resolved target list. `none` models every abort path
(empty selection, an invalid platform name, or no target left after the
source platform is excluded); in both the `'all'` branch and the explicit
comma-separated branch the source platform is filtered out. -/
def resolve_targets (available : List String) (source_type : String)
    (sel_raw : String) : Option (List String) :=
  let sel := pyStrip sel_raw.data
  if sel = [] then none
  else
    let resolved :=
      if pyLower sel = "all".data then
        some (available.filter (fun t => t ≠ source_type))
      else
        let chosen := (((pySplitComma sel).map pyStrip).filter
          (fun s => s ≠ [])).map (fun l => String.mk l)
        let invalid := chosen.filter (fun c => c ∉ available)
        if invalid = [] then some (chosen.filter (fun t => t ≠ source_type))
        else none
    match resolved with
    | none => none
    | some r => if r = [] then none else some r

/-- The per-target loop of `main.py convert_playlist` lines 159-166:
`add_to_target` for each resolved target, wrapped in `try/except` so that a
raised error for one target is logged and the loop continues with the next.
`runTarget t = .error e` models an unhandled exception for target `t`. -/
def convert_targets_loop (runTarget : String → Except String AddOutcome) :
    List String → List (String × Except String AddOutcome)
  | [] => []
  | t :: rest => (t, runTarget t) :: convert_targets_loop runTarget rest

/-- The abort paths of `main.py convert_playlist` that return before the
per-target loop starts. -/
inductive ConvertAbort where
  | noSourceClient
  | noTracks
  | emptyName
  | selectionAborted
  deriving DecidableEq, Repr

/-- Embeds `main.py convert_playlist`: resolve the source client (`None` → abort),
fetch via `get_tracks`, abort when the track list is empty (`if not tracks`),
abort on an empty playlist name, resolve the targets (abort on `none`),
then run the per-target loop. `fetchResult = none` models a missing source
client; otherwise it is the outcome of the source adapter's
`get_playlist_tracks`. -/
def convert_playlist (fetchResult : Option (Except String (List Track)))
    (playlist_name_raw : String) (available : List String)
    (source_type : String) (sel_raw : String)
    (runTarget : String → Except String AddOutcome) :
    Except ConvertAbort (List (String × Except String AddOutcome)) :=
  match fetchResult with
  | none => .error .noSourceClient
  | some fr =>
    let tracks := get_tracks fr
    if tracks.isEmpty then .error .noTracks
    else if pyStrip playlist_name_raw.data = [] then .error .emptyName
    else
      match resolve_targets available source_type sel_raw with
      | none => .error .selectionAborted
      | some resolved => .ok (convert_targets_loop runTarget resolved)

/-! ## Fetching tracks (`get_playlist_tracks` of both adapters) -/

/-- One element of `results['items']` in
`spotify_client.py SpotifyClient.get_playlist_tracks`, keeping exactly the
fields that method subscripts: `track['name']`, `track['artists']` (a list
of artist dicts, each with an optional `name` key), and `track['album']`
(an optional dict with an optional `name` key). A `none` at any layer is a
missing key. -/
structure SpRawTrack where
  name : Option String
  artists : Option (List (Option String))
  album : Option (Option String)

/-- The body of the Spotify parse loop: `track['name']`,
`track['artists'][0]['name']`, `track['album']['name']`. Every missing key
(or empty artist list) raises (`KeyError`/`IndexError`), modelled as
`.error`; nothing is defaulted. -/
def sp_parse_track (t : SpRawTrack) : Except String Track :=
  match t.name with
  | none => .error "KeyError: name"
  | some n =>
    match t.artists with
    | none => .error "KeyError: artists"
    | some [] => .error "IndexError: artists is empty"
    | some (a0 :: _) =>
      match a0 with
      | none => .error "KeyError: artist name"
      | some ar =>
        match t.album with
        | none => .error "KeyError: album"
        | some album =>
          match album with
          | none => .error "KeyError: album name"
          | some al => .ok { name := n, artist := ar, album := al }

/-- Embeds `spotify_client.py SpotifyClient.get_playlist_tracks`: the parse loop
appends one track per item; an exception raised while parsing any item
propagates out of the method, so no list is returned at all. -/
def sp_get_playlist_tracks : List SpRawTrack → Except String (List Track)
  | [] => .ok []
  | it :: rest =>
    match sp_parse_track it with
    | .error e => .error e
    | .ok tr =>
      match sp_get_playlist_tracks rest with
      | .error e => .error e
      | .ok ts => .ok (tr :: ts)

/-- One element of `playlist['tracks']` in
`youtube_client.py YouTubeMusicClient.get_playlist_tracks`: either a dict
(with optional `title`, optional `artists` list of artist names, and an
optional-dict `album` whose `name` key is itself optional) or a value of
some other type, which fails the `isinstance(track, dict)` check. -/
inductive YTEntry where
  | dict (title : Option String) (artists : Option (List (Option String)))
      (album : Option (Option String))
  | other
  deriving Inhabited

/-- The YouTube artist expression
`track.get('artists', [{}])[0].get('name', 'Unknown') if track.get('artists') else "Unknown"`:
an absent or empty (falsy) `artists` list gives `"Unknown"`, otherwise the
first artist's `name` defaulted to `"Unknown"`. -/
def yt_artist_field : Option (List (Option String)) → String
  | none => "Unknown"
  | some [] => "Unknown"
  | some (a :: _) => a.getD "Unknown"

/-- The YouTube album expression
`track.get('album', {}).get('name', '') if isinstance(track.get('album'), dict) else ''`:
if `album` is absent or not a dict the result is `""`, otherwise the dict's
`name` defaulted to `""`. -/
def yt_album_field : Option (Option String) → String
  | none => ""
  | some n => n.getD ""

/-- The body of the YouTube parse loop: a non-dict entry is skipped by the
`isinstance(track, dict)` guard (returns `none`); a dict entry always
parses, with `title` defaulted to `"Unknown"`. -/
def yt_parse_entry : YTEntry → Option Track
  | .other => none
  | .dict title artists album =>
    some { name := title.getD "Unknown", artist := yt_artist_field artists,
           album := yt_album_field album }

/-- Embeds `youtube_client.py YouTubeMusicClient.get_playlist_tracks`: the parse
loop over `playlist['tracks']` never raises — non-dict entries are skipped
and missing fields are replaced by placeholders. -/
def yt_get_playlist_tracks (entries : List YTEntry) : Except String (List Track) :=
  .ok (entries.filterMap yt_parse_entry)

/-- Unfolding of the set built from one source list during merge. -/
theorem merge_foldl_eq (acc : Finset (String × String)) (ts : List Track) :
    ts.foldl (fun a t => insert (trackKey t) a) acc = acc ∪ (ts.map trackKey).toFinset := by
  induction ts generalizing acc with
  | nil => simp
  | cons t rest ih =>
      simp only [List.foldl_cons, ih, List.map_cons, List.toFinset_cons]
      ext p
      simp only [Finset.mem_union, Finset.mem_insert]
      tauto

/-- The merge of exactly two sources is the union of their key sets. -/
theorem merge_pair_set_pair (A B : List Track) :
    merge_pair_set [A, B] = track_pair_set A ∪ track_pair_set B := by
  simp [merge_pair_set, merge_foldl_eq, track_pair_set, Finset.union_assoc]

/-- C9: for a compare over exactly two sources A and B, the common set
together with the two per-source unique sets reconstructs the union of the
two key sets, and the common set is disjoint from each unique set. -/
theorem compare_two_sources_partition (A B : List Track) :
    compare_common (track_pair_set A) [track_pair_set B] ∪
        unique_to (track_pair_set A) (compare_common (track_pair_set A) [track_pair_set B]) ∪
        unique_to (track_pair_set B) (compare_common (track_pair_set A) [track_pair_set B]) =
      track_pair_set A ∪ track_pair_set B ∧
    compare_common (track_pair_set A) [track_pair_set B] ∩
        unique_to (track_pair_set A) (compare_common (track_pair_set A) [track_pair_set B]) = ∅ ∧
    compare_common (track_pair_set A) [track_pair_set B] ∩
        unique_to (track_pair_set B) (compare_common (track_pair_set A) [track_pair_set B]) = ∅ := by
  refine ⟨?_, ?_, ?_⟩
  · ext p
    simp only [compare_common, List.foldl_cons, List.foldl_nil, unique_to,
      Finset.mem_union, Finset.mem_inter, Finset.mem_sdiff]
    tauto
  · ext p
    simp only [compare_common, List.foldl_cons, List.foldl_nil, unique_to,
      Finset.mem_union, Finset.mem_inter, Finset.mem_sdiff, Finset.not_mem_empty]
    tauto
  · ext p
    simp only [compare_common, List.foldl_cons, List.foldl_nil, unique_to,
      Finset.mem_union, Finset.mem_inter, Finset.mem_sdiff, Finset.not_mem_empty]
    tauto

/-! ## Concrete sample data used by witnesses and counterexamples -/

/-- The first track of the spec's example scenario. -/
def songA : Track := { name := "Song A", artist := "Artist X", album := "" }

/-- The second track of the spec's example scenario. -/
def songB : Track := { name := "Song B", artist := "Artist Y", album := "" }

/-- A search behaviour that resolves `songA` and misses everything else. -/
def searchOnlyA : Track → Option String :=
  fun t => if t = songA then some "idA" else none

/-- A `playlist_add_items` that always succeeds. -/
def addItemsOk : String → List String → Option Unit :=
  fun _ _ => some ()

/-- A YouTube search behaviour that resolves `songA` only. -/
def ytSearchOnlyA : Track → List String :=
  fun t => if t = songA then ["vidA"] else []

/-- A `yt.add_playlist_items` that always succeeds. -/
def ytAddOk : String → String → Option Unit :=
  fun _ _ => some ()

/-- A target client whose playlist creation succeeds and whose batch add is
the Spotify adapter's `add_tracks` with `searchOnlyA`. -/
def clientBatchA : TargetClient :=
  { create := fun _ => some "pid", cap := .batch (spotify_add_tracks searchOnlyA addItemsOk) }

/-- A target client whose `create_playlist` always raises. -/
def clientCreateFail : TargetClient :=
  { create := fun _ => none, cap := .noAdd }

/-- A per-target runner that always raises, for witnesses. -/
def runBoom : String → Except String AddOutcome :=
  fun _ => .error "boom"

/-! ## Helper lemmas about the loops -/

/-- The per-track loop processes every track: its first component is the
full length of the input, whatever the per-track outcomes are. -/
theorem per_track_add_loop_fst (f : Nat → Track → Bool) (s : Nat) (ts : List Track) :
    (per_track_add_loop f s ts).1 = ts.length := by
  induction ts generalizing s with
  | nil => rfl
  | cons t rest ih => simp [per_track_add_loop, ih]

/-- The number of adds the per-track loop makes is the number of
(index, track) pairs on which the add call succeeds. -/
theorem per_track_add_loop_snd (f : Nat → Track → Bool) (s : Nat) (ts : List Track) :
    (per_track_add_loop f s ts).2 = (List.enumFrom s ts).countP (fun p => f p.1 p.2) := by
  induction ts generalizing s with
  | nil => rfl
  | cons t rest ih =>
      simp only [per_track_add_loop, List.enumFrom, List.countP_cons, ih]

/-- The per-target loop pairs every target with its own outcome. -/
theorem convert_targets_loop_eq_map (run : String → Except String AddOutcome)
    (targets : List String) :
    convert_targets_loop run targets = targets.map (fun t => (t, run t)) := by
  induction targets with
  | nil => rfl
  | cons t rest ih => simp [convert_targets_loop, ih]

/-! ## C1 -/

/-- C1: in the per-track fallback loop of `add_to_target`, over a non-empty
track list, when the add of the track at position `j` raises (modelled by
forcing the outcome at index `j` to `false`), the exception is caught and
iteration still processes every track (first conjunct), and the adds are
exactly the successes of the unchanged add behaviour on all positions other
than `j` (second conjunct) — so a single failing track neither aborts the
transfer nor reduces the number of other tracks added. -/
theorem failing_track_does_not_abort_or_reduce_others
    (addTrack : Nat → Track → Bool) (j : Nat) (tracks : List Track)
    (hne : tracks ≠ []) :
    (per_track_add_loop (fun i t => if i = j then false else addTrack i t) 1 tracks).1 =
      tracks.length ∧
    (per_track_add_loop (fun i t => if i = j then false else addTrack i t) 1 tracks).2 =
      ((List.enumFrom 1 tracks).filter (fun p => p.1 ≠ j)).countP
        (fun p => addTrack p.1 p.2) := by
  refine ⟨per_track_add_loop_fst _ _ _, ?_⟩
  rw [per_track_add_loop_snd, List.countP_filter]
  refine List.countP_congr ?_
  intro p _
  by_cases h : p.1 = j <;> simp [h]

/-- C1 witness: two tracks, the add of the track at index 1 raises, every
other add succeeds: both tracks are processed and exactly the other track
is added. -/
theorem failing_track_does_not_abort_or_reduce_others_witness :
    (per_track_add_loop (fun i _ => if i = 1 then false else (fun _ _ => true) i songA) 1
        [songA, songB]).1 = [songA, songB].length ∧
    (per_track_add_loop (fun i _ => if i = 1 then false else (fun _ _ => true) i songA) 1
        [songA, songB]).2 =
      ((List.enumFrom 1 [songA, songB]).filter (fun p => p.1 ≠ 1)).countP
        (fun _ => true) := by
  exact failing_track_does_not_abort_or_reduce_others (fun _ _ => true) 1 [songA, songB]
    (by decide)

/-! ## C2 -/

/-- C2: when `create_playlist` raises for a target, `add_to_target` returns
the failed outcome with no playlist created and zero tracks attempted
(first conjunct); and the per-target loop of `convert_playlist` pairs every
resolved target with its own independently computed outcome, so a raised
error for one target never prevents processing the next (second conjunct). -/
theorem create_failure_isolated_per_target (c : TargetClient) (playlist_name : String)
    (tracks : List Track) (run : String → Except String AddOutcome)
    (targets : List String)
    (hc : c.create playlist_name = none) :
    add_to_target (some c) playlist_name tracks = ⟨false, none, 0, 0⟩ ∧
    convert_targets_loop run targets = targets.map (fun t => (t, run t)) := by
  refine ⟨?_, convert_targets_loop_eq_map run targets⟩
  simp [add_to_target, hc]

/-- C2 witness: a client whose creation raises yields the failed outcome
with zero tracks attempted, and a two-target loop with an always-raising
runner still produces one entry per target. -/
theorem create_failure_isolated_per_target_witness :
    add_to_target (some clientCreateFail) "New" [songA] = ⟨false, none, 0, 0⟩ ∧
    convert_targets_loop runBoom ["Spotify", "YouTube Music"] =
      ["Spotify", "YouTube Music"].map (fun t => (t, runBoom t)) := by
  exact create_failure_isolated_per_target clientCreateFail "New" [songA] runBoom
    ["Spotify", "YouTube Music"] rfl

/-! ## C4 -/

/-- The YouTube batch add never reports more adds than tracks requested. -/
theorem yt_add_tracks_le (search : Track → List String)
    (addItems : String → String → Option Unit) (pid : String) :
    ∀ (ts : List Track) (m : Nat),
      yt_add_tracks search addItems pid ts = some m → m ≤ ts.length := by
  intro ts
  induction ts with
  | nil =>
      intro m hm
      simp only [yt_add_tracks] at hm
      cases hm
      simp
  | cons t rest ih =>
      intro m hm
      cases hs : search t with
      | nil =>
          simp only [yt_add_tracks, hs] at hm
          exact Nat.le_succ_of_le (ih m hm)
      | cons v vs =>
          cases ha : addItems pid v with
          | none => simp [yt_add_tracks, hs, ha] at hm
          | some u =>
              cases hr : yt_add_tracks search addItems pid rest with
              | none => simp [yt_add_tracks, hs, ha, hr] at hm
              | some n =>
                  simp only [yt_add_tracks, hs, ha, hr, Option.some.injEq] at hm
                  subst hm
                  exact Nat.succ_le_succ (ih n hr)

/-- C4: for every input track list, the add count a batch add reports never
exceeds the number of tracks requested, on the Spotify adapter and on the
YouTube adapter alike. -/
theorem tracks_added_le_tracks_requested
    (search : Track → Option String) (addItems : String → List String → Option Unit)
    (ysearch : Track → List String) (yadd : String → String → Option Unit)
    (pid : String) (tracks : List Track) (n m : Nat)
    (hsp : spotify_add_tracks search addItems pid tracks = some n)
    (hyt : yt_add_tracks ysearch yadd pid tracks = some m) :
    n ≤ tracks.length ∧ m ≤ tracks.length := by
  refine ⟨?_, yt_add_tracks_le ysearch yadd pid tracks m hyt⟩
  have hlen : (tracks.filterMap search).length ≤ tracks.length :=
    List.length_filterMap_le search tracks
  simp only [spotify_add_tracks] at hsp
  by_cases he : (tracks.filterMap search).isEmpty
  · rw [if_pos he] at hsp
    cases hsp
    exact hlen
  · rw [if_neg he] at hsp
    cases ha : addItems pid (tracks.filterMap search) with
    | none => rw [ha] at hsp; cases hsp
    | some u => rw [ha] at hsp; cases hsp; exact hlen

/-- C4 witness: with one resolvable track out of two, both adapters report
1 added out of 2 requested. -/
theorem tracks_added_le_tracks_requested_witness :
    (1 : Nat) ≤ [songA, songB].length ∧ (1 : Nat) ≤ [songA, songB].length := by
  exact tracks_added_le_tracks_requested searchOnlyA addItemsOk ytSearchOnlyA ytAddOk
    "pid" [songA, songB] 1 1 (by decide) (by decide)

/-! ## C3 -/

/-- C3 counterexample: a target whose batch add is the Spotify adapter with
a search that resolves only the first of two tracks. The add phase runs and
reports 1 of 2 tracks added, yet `add_to_target` returns `True` — the code
reports full success even though `tracks_added ≠ tracks_requested`, so the
claimed Succeeded-iff-all-added / PartialFailure-otherwise rule is false. -/
theorem success_reported_despite_missing_adds :
    (add_to_target (some clientBatchA) "New" [songA, songB]).ok = true ∧
    (add_to_target (some clientBatchA) "New" [songA, songB]).added = 1 ∧
    [songA, songB].length = 2 := by
  decide

/-- C3 amended: once the playlist is created, the boolean outcome reported
to the caller is `True` exactly when the add phase raised no error: on the
batch path, `True` if and only if the batch call returned rather than
raised — whatever count it returned, no comparison with `tracks_requested`
is made — and `True` always on the per-track path, where every per-track
raise is caught inside the loop; the add count never influences the
reported outcome. -/
theorem reported_outcome_ignores_added_count (c : TargetClient)
    (playlist_name : String) (tracks : List Track) (pid : String)
    (hc : c.create playlist_name = some pid) :
    (∀ f, c.cap = .batch f →
      ((add_to_target (some c) playlist_name tracks).ok = true ↔
        (f pid tracks).isSome = true)) ∧
    (∀ g, c.cap = .perTrack g →
      (add_to_target (some c) playlist_name tracks).ok = true) := by
  constructor
  · intro f hcap
    cases hf : f pid tracks with
    | none => simp [add_to_target, hc, hcap, hf]
    | some n => simp [add_to_target, hc, hcap, hf]
  · intro g hcap
    simp [add_to_target, hc, hcap]

/-- C3 witness: a concrete client whose batch add returns 1 of 2 is
reported as `True` (forward use of the iff), and the same client with the
batch call replaced by a raising one is reported as `False` (no-raise is
necessary, not just sufficient). -/
theorem reported_outcome_ignores_added_count_witness :
    (add_to_target (some clientBatchA) "New" [songA, songB]).ok = true ∧
    (add_to_target (some { create := (fun _ => some "pid"), cap := .batch (fun _ _ => none) }) "New" [songA, songB]).ok = false := by
  constructor
  · exact ((reported_outcome_ignores_added_count clientBatchA "New" [songA, songB] "pid"
      rfl).1 (spotify_add_tracks searchOnlyA addItemsOk) rfl).mpr (by decide)
  · have h := ((reported_outcome_ignores_added_count
      { create := (fun _ => some "pid"), cap := .batch (fun _ _ => none) }
      "New" [songA, songB] "pid" rfl).1 (fun _ _ => none) rfl)
    simp only [Option.isSome_none, Bool.false_eq_true, iff_false] at h
    exact Bool.not_eq_true _ |>.mp h

/-! ## C5 -/

/-- C5 counterexample: a source playlist with zero tracks makes
`convert_playlist` abort with the no-tracks warning before any playlist is
created on any target (the per-target loop, and hence `create_playlist`,
is never reached) — it does not yield an empty created playlist. -/
theorem empty_source_aborts_before_creation :
    convert_playlist (some (.ok [])) "New" ["Spotify", "YouTube Music"] "Spotify" "all"
      (fun _ => .ok ⟨true, some "pid", 0, 0⟩) = .error .noTracks := by
  rfl

/-- C5 amended: inside `add_to_target`, once playlist creation succeeds the
transfer does proceed regardless of track count — with an empty track list
and the Spotify batch add, the result is success with the created playlist
and zero adds; but a conversion whose source yields zero tracks aborts in
`convert_playlist` before any creation is attempted. -/
theorem empty_track_list_still_creates_inside_add (c : TargetClient)
    (playlist_name pid : String) (search : Track → Option String)
    (addItems : String → List String → Option Unit)
    (hc : c.create playlist_name = some pid)
    (hcap : c.cap = .batch (spotify_add_tracks search addItems)) :
    add_to_target (some c) playlist_name [] = ⟨true, some pid, 0, 0⟩ ∧
    ∀ (fr : Except String (List Track)) (nameRaw : String) (avail : List String)
      (src sel : String) (run : String → Except String AddOutcome),
      get_tracks fr = [] →
      convert_playlist (some fr) nameRaw avail src sel run = .error .noTracks := by
  constructor
  · simp [add_to_target, hc, hcap, spotify_add_tracks]
  · intro fr nameRaw avail src sel run hfr
    simp [convert_playlist, hfr]

/-- C5 witness: the concrete batch client creates the playlist and succeeds
on an empty track list, and a concrete empty fetch aborts the conversion. -/
theorem empty_track_list_still_creates_inside_add_witness :
    add_to_target (some clientBatchA) "New" [] = ⟨true, some "pid", 0, 0⟩ ∧
    convert_playlist (some (.ok [])) "New" ["YouTube Music"] "Spotify" "all" runBoom =
      .error .noTracks := by
  refine ⟨?_, ?_⟩
  · exact (empty_track_list_still_creates_inside_add clientBatchA "New" "pid"
      searchOnlyA addItemsOk rfl rfl).1
  · exact (empty_track_list_still_creates_inside_add clientBatchA "New" "pid"
      searchOnlyA addItemsOk rfl rfl).2 (.ok []) "New" ["YouTube Music"] "Spotify" "all"
      runBoom rfl

/-! ## C6 -/

/-- C6 counterexample: the transfer result the code produces for a batch
containing a track with zero search results is identical to the result for
the same batch without that track — `some 1` in both runs, and the returned
`add_to_target` boolean is `true` in both runs. Since a run containing the
`NoMatchFound` miss is indistinguishable from a failure-free run, no
per-track failure with reason `NoMatchFound` is recorded anywhere in the
transfer result, refuting the recording half of the claim. -/
theorem no_match_miss_not_recorded :
    searchOnlyA songB = none ∧
    spotify_add_tracks searchOnlyA addItemsOk "pid" [songA, songB] =
      spotify_add_tracks searchOnlyA addItemsOk "pid" [songA] ∧
    spotify_add_tracks searchOnlyA addItemsOk "pid" [songA, songB] = some 1 ∧
    (add_to_target (some clientBatchA) "New" [songA, songB]).ok =
      (add_to_target (some clientBatchA) "New" [songA]).ok := by
  decide

/-- C6 amended: a track whose search query returns zero results is dropped
silently: the batch add neither raises nor aborts, and it returns exactly
the result it would return on the same list without that track, on the
Spotify adapter and on the YouTube adapter alike. The only trace of the
miss is the reduced add count; no per-track failure record exists. -/
theorem no_match_track_silently_dropped
    (search : Track → Option String) (addItems : String → List String → Option Unit)
    (ysearch : Track → List String) (yadd : String → String → Option Unit)
    (pid : String) (pre post : List Track) (t : Track)
    (hs : search t = none) (hy : ysearch t = []) :
    spotify_add_tracks search addItems pid (pre ++ t :: post) =
      spotify_add_tracks search addItems pid (pre ++ post) ∧
    yt_add_tracks ysearch yadd pid (pre ++ t :: post) =
      yt_add_tracks ysearch yadd pid (pre ++ post) := by
  constructor
  · have hfm : (pre ++ t :: post).filterMap search = (pre ++ post).filterMap search := by
      simp [List.filterMap_append, List.filterMap_cons, hs]
    simp only [spotify_add_tracks, hfm]
  · induction pre with
    | nil => simp only [List.nil_append, yt_add_tracks, hy]
    | cons p rest ih =>
        simp only [List.cons_append, yt_add_tracks, List.append_eq, ih]

/-- C6 witness: dropping the unresolvable `songB` leaves both adapters'
results unchanged. -/
theorem no_match_track_silently_dropped_witness :
    spotify_add_tracks searchOnlyA addItemsOk "pid" ([songA] ++ songB :: []) =
      spotify_add_tracks searchOnlyA addItemsOk "pid" ([songA] ++ []) ∧
    yt_add_tracks ytSearchOnlyA ytAddOk "pid" ([songA] ++ songB :: []) =
      yt_add_tracks ytSearchOnlyA ytAddOk "pid" ([songA] ++ []) := by
  exact no_match_track_silently_dropped searchOnlyA addItemsOk ytSearchOnlyA ytAddOk
    "pid" [songA] [] songB (by decide) (by decide)

/-! ## C7 -/

/-- C7 counterexample: a playlist response with one dict entry missing
every field and one non-dict entry. The YouTube adapter neither raises nor
returns the two entries: it returns `.ok` with a single placeholder-filled
track, silently skipping the non-dict entry — so it is false that every
platform adapter raises on a partially malformed upstream response. -/
theorem yt_fetch_placeholder_fills_and_truncates :
    yt_get_playlist_tracks [.dict none none none, .other] =
      .ok [{ name := "Unknown", artist := "Unknown", album := "" }] ∧
    ([(YTEntry.dict none none none), .other].length = 2) := by
  exact ⟨rfl, rfl⟩

/-- A list-length helper: the length of a `filterMap` is the number of
elements on which the function succeeds. -/
theorem length_filterMap_eq_countP {α β : Type} (f : α → Option β) (l : List α) :
    (l.filterMap f).length = l.countP (fun a => (f a).isSome) := by
  induction l with
  | nil => rfl
  | cons a rest ih =>
      cases hf : f a with
      | none => simp [List.filterMap_cons, hf, List.countP_cons, ih]
      | some b => simp [List.filterMap_cons, hf, List.countP_cons, ih]

/-- C7 amended: the Spotify adapter does raise on a partially malformed
response — if any item of the upstream payload fails to parse, the whole
fetch raises and no (truncated) list is returned; the YouTube adapter, by
contrast, never raises while parsing: it returns a list with one entry per
parseable (dict) item, placeholder-filling missing fields and silently
skipping the rest. -/
theorem sp_fetch_raises_yt_fetch_defaults
    (items : List SpRawTrack) (t : SpRawTrack) (e : String)
    (hmem : t ∈ items) (hbad : sp_parse_track t = .error e) :
    (sp_get_playlist_tracks items).isOk = false ∧
    ∀ entries : List YTEntry,
      (yt_get_playlist_tracks entries).isOk = true ∧
      yt_get_playlist_tracks entries =
        .ok (entries.filterMap yt_parse_entry) ∧
      (entries.filterMap yt_parse_entry).length =
        entries.countP (fun en => (yt_parse_entry en).isSome) := by
  refine ⟨?_, fun entries => ⟨rfl, rfl, length_filterMap_eq_countP _ _⟩⟩
  induction items with
  | nil => cases hmem
  | cons it rest ih =>
      cases hmem with
      | head =>
          simp [sp_get_playlist_tracks, hbad, Except.isOk, Except.toBool]
      | tail _ hm =>
          cases hp : sp_parse_track it with
          | error e2 => simp [sp_get_playlist_tracks, hp, Except.isOk, Except.toBool]
          | ok tr =>
              have hrest := ih hm
              cases hr : sp_get_playlist_tracks rest with
              | error e2 => simp [sp_get_playlist_tracks, hp, hr, Except.isOk, Except.toBool]
              | ok ts =>
                  rw [hr] at hrest
                  simp [Except.isOk, Except.toBool] at hrest

/-- C7 witness: a single Spotify item missing its `name` key makes the
whole fetch raise, while the YouTube parse of any response (here the same
shape) stays raise-free. -/
theorem sp_fetch_raises_yt_fetch_defaults_witness :
    (sp_get_playlist_tracks [{ name := none, artists := none, album := none }]).isOk =
      false ∧
    (yt_get_playlist_tracks [YTEntry.dict none none none]).isOk = true := by
  refine ⟨?_, ?_⟩
  · exact (sp_fetch_raises_yt_fetch_defaults
      [{ name := none, artists := none, album := none }]
      { name := none, artists := none, album := none } "KeyError: name"
      (List.mem_singleton.mpr rfl) rfl).1
  · exact ((sp_fetch_raises_yt_fetch_defaults
      [{ name := none, artists := none, album := none }]
      { name := none, artists := none, album := none } "KeyError: name"
      (List.mem_singleton.mpr rfl) rfl).2 [YTEntry.dict none none none]).1

/-! ## C8 -/

/-- C8 counterexample: `A = [songA, songA]` (an internal duplicate) and
`B = [songB]` have disjoint `(name, artist)` pair sets, yet the merge has
2 entries, not `len(A) + len(B) = 3` — the Python set collapses the
duplicate inside A, so the claimed length equation fails for lists with
internal duplicate keys. -/
theorem merge_length_fails_with_internal_duplicates :
    track_pair_set [songA, songA] ∩ track_pair_set [songB] = ∅ ∧
    (merged_tracks [[songA, songA], [songB]]).card = 2 ∧
    [songA, songA].length + [songB].length = 3 := by
  decide

/-- C8 amended: for sources A and B whose `(name, artist)` pair sets are
disjoint and which are each internally duplicate-free on that key, the
merge has exactly `len(A) + len(B)` entries; and (with no hypotheses
needed) merging is a union keyed by the exact `(name, artist)` pair —
a track is in the merge exactly when its key occurs in A or B and its
album field is blanked, duplicate keys collapsing into the one entry. -/
theorem merge_disjoint_length_and_keying (A B : List Track)
    (hA : (A.map trackKey).Nodup) (hB : (B.map trackKey).Nodup)
    (hAB : track_pair_set A ∩ track_pair_set B = ∅) :
    (merged_tracks [A, B]).card = A.length + B.length ∧
    ∀ t : Track, t ∈ merged_tracks [A, B] ↔
      (trackKey t ∈ track_pair_set A ∪ track_pair_set B ∧ t.album = "") := by
  have hinj : Function.Injective
      (fun p : String × String => ({ name := p.1, artist := p.2, album := "" } : Track)) := by
    intro p q hpq
    simp only [Track.mk.injEq] at hpq
    exact Prod.ext hpq.1 hpq.2.1
  have himg : merged_tracks [A, B] =
      (track_pair_set A ∪ track_pair_set B).image
        (fun p => { name := p.1, artist := p.2, album := "" }) := by
    rw [merged_tracks, merge_pair_set_pair]
  constructor
  · rw [himg, Finset.card_image_of_injective _ hinj,
      Finset.card_union_of_disjoint (Finset.disjoint_iff_inter_eq_empty.mpr hAB),
      track_pair_set, track_pair_set, List.toFinset_card_of_nodup hA,
      List.toFinset_card_of_nodup hB, List.length_map, List.length_map]
  · intro t
    rw [himg, Finset.mem_image]
    constructor
    · rintro ⟨p, hp, hfp⟩
      refine ⟨?_, ?_⟩
      · have : trackKey t = p := by
          rw [← hfp]
          rfl
        rw [this]
        exact hp
      · rw [← hfp]
    · rintro ⟨hmem, halb⟩
      refine ⟨trackKey t, hmem, ?_⟩
      cases t with
      | mk n a al =>
          simp only [trackKey] at halb ⊢
          rw [halb]

/-- C8 witness: two distinct one-track sources merge into 1 + 1 entries. -/
theorem merge_disjoint_length_and_keying_witness :
    (merged_tracks [[songA], [songB]]).card = [songA].length + [songB].length := by
  exact (merge_disjoint_length_and_keying [songA] [songB] (by decide) (by decide)
    (by decide)).1

/-! ## C10 -/

/-- Every resolved target list is a filter that removed the source
platform, in both selection branches. -/
theorem resolve_targets_shape (available : List String)
    (source_type sel : String) (rs : List String)
    (h : resolve_targets available source_type sel = some rs) :
    ∃ base : List String, rs = base.filter (fun t => t ≠ source_type) := by
  simp only [resolve_targets] at h
  split at h
  · cases h
  · split at h
    · cases h
    · rename_i hres
      split at h
      · cases h
      · cases h
        split at hres
        · cases hres
          exact ⟨available, rfl⟩
        · split at hres
          · cases hres
            rename_i chosen hinv
            exact ⟨_, rfl⟩
          · cases hres

/-- C10: whenever `convert_playlist` reaches its per-target loop, every
processed target differs from the source platform — whether the selection
was the `'all'` shortcut or an explicit comma-separated list that may name
the source, the source is filtered out, so a playlist is never transferred
back onto the platform it was fetched from. -/
theorem playlist_never_transferred_back_to_source
    (fetchResult : Option (Except String (List Track))) (nameRaw : String)
    (available : List String) (source_type sel : String)
    (run : String → Except String AddOutcome)
    (results : List (String × Except String AddOutcome))
    (hok : convert_playlist fetchResult nameRaw available source_type sel run =
      .ok results) :
    ∀ pr ∈ results, pr.1 ≠ source_type := by
  cases fetchResult with
  | none => cases hok
  | some fr =>
      simp only [convert_playlist] at hok
      split at hok
      · cases hok
      · split at hok
        · cases hok
        · cases hres : resolve_targets available source_type sel with
          | none => rw [hres] at hok; cases hok
          | some resolved =>
              rw [hres] at hok
              cases hok
              obtain ⟨base, hbase⟩ :=
                resolve_targets_shape available source_type sel resolved hres
              intro pr hpr
              rw [convert_targets_loop_eq_map] at hpr
              obtain ⟨t, ht, hpt⟩ := List.mem_map.mp hpr
              rw [← hpt]
              rw [hbase] at ht
              have := (List.mem_filter.mp ht).2
              simpa using this

/-- C10 witness: a concrete conversion from Spotify with selection `all`
resolves only the other platform, and the processed target is not the
source. -/
theorem playlist_never_transferred_back_to_source_witness :
    ("YouTube Music" : String) ≠ "Spotify" := by
  exact playlist_never_transferred_back_to_source (some (.ok [songA])) "New"
    ["Spotify", "YouTube Music"] "Spotify" "all" runBoom
    [("YouTube Music", Except.error "boom")] rfl
    ("YouTube Music", Except.error "boom") (List.mem_singleton.mpr rfl)
